import Mathlib

/-!
Shallow embedding of the Job Submission & Resilient Status-Polling
Orchestrator of `src/comprehensive_veo3_solution.js`.

The embedding mirrors the JavaScript source:
* `modelEndpoints` — the candidate registry (line 66);
* `checkOperationStatusComprehensive` — the status prober (lines 130-196),
  with the HTTP world abstracted as a function from URL to response and the
  token provider as an `Except`;
* the submission loop of `app.post('/generate-video')` (lines 209-239) as
  `submitPhase`;
* the polling while-loop (lines 242-292) as `pollLoopAux`, fuel-indexed,
  with wall-clock time threaded explicitly (milliseconds);
* the terminal-payload classification (lines 253-277) as `classifyDone`,
  returning `Except` because accessing a field of an absent `response`
  object raises a TypeError in JavaScript;
* the whole route handler, submission plus polling plus the outer catch
  (lines 199-307), as `generateVideoHandler`.
-/

/-! ## Data model -/

/-- One element of `response.videos` in a terminal payload: may or may not
carry a `gcsUri` field. -/
structure Video where
  gcsUri : Option String
  deriving DecidableEq, Repr

/-- The `response` object of a terminal operation payload. Both fields are
optional, as in the JSON the backend returns. -/
structure GenResponse where
  raiMediaFilteredCount : Option Nat
  videos : Option (List Video)
  deriving DecidableEq, Repr

/-- An operation-status payload: `done` flag (absent coerces to false in JS,
so a `Bool` is faithful) and the optional `response` object. -/
structure StatusData where
  done : Bool
  response : Option GenResponse
  deriving DecidableEq, Repr

/-- Outcome of one HTTP GET as seen by the axios caller: a resolved response
with a status code and payload, a thrown error carrying an HTTP status
(`error.response.status`), or a thrown transport error with no response. -/
inductive HttpResp where
  | ok (status : Nat) (data : StatusData)
  | httpError (status : Nat) (msg : String)
  | transportError (msg : String)
  deriving DecidableEq, Repr

/-- Result of `checkOperationStatusComprehensive`: `{success: true, data,
endpoint}` or `{success: false, error}`. -/
inductive StatusResult where
  | success (data : StatusData) (endpoint : String)
  | failure (error : String)
  deriving DecidableEq, Repr

/-- The environment a probe runs in: the token provider (may fail, as
`getAccessToken` may throw) and the HTTP world mapping each URL to the
response the network would give. -/
structure ProbeWorld where
  token : Except String Unit
  http : String → HttpResp

/-- An error value thrown in JS: optional numeric `code` plus `message`. -/
structure JsError where
  code : Option Nat
  message : String
  deriving DecidableEq, Repr

/-! ## Constants from the source -/

/-- Line 66: `const modelEndpoints = ['veo-3', 'veo-3.0-generate-001',
'video-generation'];` -/
def modelEndpoints : List String := ["veo-3", "veo-3.0-generate-001", "video-generation"]

/-- Line 15: `const projectId = 'dreamframe';` -/
def projectId : String := "dreamframe"

/-- Line 242: `const maxWaitSeconds = 14400; // 4 hours` -/
def maxWaitSeconds : Nat := 14400

/-- Line 285: poll every 30 seconds (`setTimeout(resolve, 30000)`). -/
def pollIntervalMs : Nat := 30000

/-! ## String helpers mirroring the JS idioms -/

/-- Accumulator pass of `s.split('/').pop()`: keeps the characters seen
since the last `'/'`. -/
def lastSegAux : List Char → List Char → List Char
  | [], acc => acc
  | c :: cs, acc => if c = '/' then lastSegAux cs [] else lastSegAux cs (acc ++ [c])

/-- JavaScript `s.split('/').pop()`: the final `'/'`-delimited segment of
`s` (the whole string when no `'/'` occurs, empty when `s` ends in `'/'`). -/
def splitPop (s : String) : String := String.mk (lastSegAux s.toList [])

/-- Line 135: `operationId.includes('/') ? operationId.split('/').pop() :
operationId`. -/
def cleanOperationId (operationId : String) : String :=
  if operationId.toList.contains '/' then splitPop operationId else operationId

/-! ## Status prober (lines 130-196) -/

/-- Line 140: the candidate-scoped status-lookup URL. -/
def candidateStatusUrl (endpoint opId : String) : String :=
  "https://us-central1-aiplatform.googleapis.com/v1/projects/" ++ projectId ++
    "/locations/us-central1/publishers/google/models/" ++ endpoint ++
    "/operations/" ++ opId

/-- Line 167: the generic operations-lookup URL, not scoped to any
candidate. -/
def genericOperationsUrl (opId : String) : String :=
  "https://us-central1-aiplatform.googleapis.com/v1/projects/" ++ projectId ++
    "/locations/us-central1/operations/" ++ opId

/-- The per-candidate loop of lines 138-163: return on the first candidate
whose GET resolves with status 200; every other outcome (404, other HTTP
error, transport error, non-200 resolution) falls through to the next
candidate. -/
def tryEndpoints (w : ProbeWorld) (opId : String) : List String → Option StatusResult
  | [] => none
  | e :: rest =>
    match w.http (candidateStatusUrl e opId) with
    | .ok s data =>
      if s = 200 then some (.success data e) else tryEndpoints w opId rest
    | _ => tryEndpoints w opId rest

/-- The URLs the per-candidate loop issues GETs against, in order (stops
after the first 200). -/
def tryEndpointsTrace (w : ProbeWorld) (opId : String) : List String → List String
  | [] => []
  | e :: rest =>
    match w.http (candidateStatusUrl e opId) with
    | .ok s _ =>
      if s = 200 then [candidateStatusUrl e opId]
      else candidateStatusUrl e opId :: tryEndpointsTrace w opId rest
    | _ => candidateStatusUrl e opId :: tryEndpointsTrace w opId rest

/-- The failure message of line 187. -/
def allVariations404Msg : String :=
  "All endpoint variations returned 404 - operation may not exist or VEO 3 API issue"

/-- Lines 130-196: `checkOperationStatusComprehensive(operationId)`.
Token acquisition failure is caught by the outer catch (lines 190-195);
otherwise the candidate loop runs, then the generic operations URL is
tried, and if that too fails to resolve with 200 the all-404 failure
message is returned (lines 185-188). -/
def checkOperationStatusComprehensive (w : ProbeWorld) (endpoints : List String)
    (operationId : String) : StatusResult :=
  match w.token with
  | .error msg => .failure ("Status check failed: " ++ msg)
  | .ok _ =>
    let cid := cleanOperationId operationId
    match tryEndpoints w cid endpoints with
    | some r => r
    | none =>
      match w.http (genericOperationsUrl cid) with
      | .ok s data =>
        if s = 200 then .success data ("operations-api") else .failure allVariations404Msg
      | _ => .failure allVariations404Msg

/-- All lookup URLs one call of the prober issues GETs against, in order:
the candidate-scoped URLs until the first 200, then — only when no
candidate resolved — the generic operations URL. An auth failure issues no
lookup at all. -/
def probeTrace (w : ProbeWorld) (endpoints : List String) (operationId : String) :
    List String :=
  match w.token with
  | .error _ => []
  | .ok _ =>
    let cid := cleanOperationId operationId
    match tryEndpoints w cid endpoints with
    | some _ => tryEndpointsTrace w cid endpoints
    | none => tryEndpointsTrace w cid endpoints ++ [genericOperationsUrl cid]

/-! ## Submission loop (lines 209-239) -/

/-- The for-loop of lines 210-236. `attempt e` is the outcome of
`model.generateContent` against candidate `e`: the resource `name` of the
returned operation, or the thrown error. On failure the inner catch
compares the current candidate against `modelEndpoints[modelEndpoints.length
- 1]` (the `lastEp` argument) and, when equal, throws a fresh
`Error('All model endpoint variations failed')` — which carries no `code`.
`ok none` is the loop running off the end without a break (possible only
for an empty registry). -/
def submitGo (attempt : String → Except JsError String) (lastEp : String) :
    List String → Except JsError (Option (String × String))
  | [] => .ok none
  | e :: rest =>
    match attempt e with
    | .ok name => .ok (some (name, e))
    | .error _ =>
      if e = lastEp then .error ⟨none, "All model endpoint variations failed"⟩
      else submitGo attempt lastEp rest

/-- Lines 209-239: run the submission loop, then extract the operation id
as `operation.name.split('/').pop()` (line 238). With an empty registry the
loop never runs and `operation` stays `undefined`, so line 238 raises a
TypeError (modelled as an error with no code). Returns `(operationId,
modelUsed)`. -/
def submitPhase (attempt : String → Except JsError String) (endpoints : List String) :
    Except JsError (String × String) :=
  match submitGo attempt (endpoints.getLastD "") endpoints with
  | .error e => .error e
  | .ok none => .error ⟨none, "Cannot read properties of undefined (reading name)"⟩
  | .ok (some (name, m)) => .ok (splitPop name, m)

/-- The first candidate, in registry order, whose submission attempt
succeeds (specification-level notion used to state first-success-wins). -/
def firstSuccess (attempt : String → Except JsError String) : List String → Option String
  | [] => none
  | e :: rest =>
    match attempt e with
    | .ok _ => some e
    | .error _ => firstSuccess attempt rest

/-! ## Terminal classification and poll loop (lines 242-292) -/

/-- Terminal outcome of the poll loop, as sent to the HTTP caller. -/
inductive GenOutcome where
  | filtered
  | emptyResult
  | success (videoUri : String) (endpoint : String)
  | timedOut
  deriving DecidableEq, Repr

/-- `response.videos?.[0]?.gcsUri` (line 263): optional chaining. -/
def videoUriOf (r : GenResponse) : Option String :=
  match r.videos with
  | none => none
  | some vs =>
    match vs.head? with
    | none => none
    | some v => v.gcsUri

/-- `response.raiMediaFilteredCount > 0` (line 255): an absent field is
`undefined`, and `undefined > 0` is false in JS. -/
def raiFilteredPos (c : Option Nat) : Bool :=
  match c with
  | some n => decide (0 < n)
  | none => false

/-- Lines 253-277: classification of a payload with `done` true. When the
payload has no `response` object at all, line 255 reads a property of
`undefined` and throws a TypeError (the `Except.error` branch); otherwise
the moderation check runs first, then the media-locator check (`!videoUri`
is true for both an absent locator and the empty string), else success
carrying the locator and the endpoint that resolved the probe. -/
def classifyDone (resp : Option GenResponse) (endpoint : String) :
    Except String GenOutcome :=
  match resp with
  | none => .error "TypeError: Cannot read properties of undefined"
  | some r =>
    if raiFilteredPos r.raiMediaFilteredCount then .ok .filtered
    else
      match videoUriOf r with
      | none => .ok .emptyResult
      | some uri => if uri = "" then .ok .emptyResult else .ok (.success uri endpoint)

/-- The body of one polling tick (lines 246-283), inside its try/catch: a
failed probe logs and continues (`none`); a successful probe with `done`
false continues; a successful probe with `done` true is classified, and a
TypeError thrown by the classification is caught by the tick's catch
(lines 281-283) and the loop continues. `some r` means the handler returns
terminally with `r` on this tick. -/
def tickBody (sr : StatusResult) : Option GenOutcome :=
  match sr with
  | .failure _ => none
  | .success data endpoint =>
    if data.done then
      match classifyDone data.response endpoint with
      | .ok r => some r
      | .error _ => none
    else none

/-- Result of running the polling loop: a terminal outcome together with
the tick index and the wall-clock time (ms) at the top of the iteration
that produced it, or fuel exhaustion (the loop still running — an artifact
of the fuel-indexed embedding, not a behaviour of the source). -/
inductive LoopResult where
  | result (r : GenOutcome) (tick : Nat) (time : Nat)
  | fuelOut
  deriving DecidableEq, Repr

/-- A loop run: its result and the wall-clock times at which probes were
started. -/
structure LoopRun where
  result : LoopResult
  probeStarts : List Nat
  deriving DecidableEq, Repr

/-- Lines 245-292: `while (Date.now() - startTime < maxWaitSeconds * 1000)`.
`probe n` is the `StatusResult` the n-th call of
`checkOperationStatusComprehensive` returns; `probeDur n` is the wall-clock
duration of that call; after a non-terminal tick the loop sleeps
`pollIntervalMs`. The deadline guard is evaluated at the top of each
iteration, before the probe; when it fails the handler returns the 504
timeout (lines 288-292), here `GenOutcome.timedOut`. -/
def pollLoopAux (probe : Nat → StatusResult) (probeDur : Nat → Nat)
    (startTime maxWaitMs : Nat) : Nat → Nat → Nat → LoopRun
  | 0, _, _ => ⟨.fuelOut, []⟩
  | fuel + 1, tick, now =>
    if now - startTime < maxWaitMs then
      match tickBody (probe tick) with
      | some r => ⟨.result r tick now, [now]⟩
      | none =>
        ⟨(pollLoopAux probe probeDur startTime maxWaitMs fuel (tick + 1)
            (now + probeDur tick + pollIntervalMs)).result,
          now :: (pollLoopAux probe probeDur startTime maxWaitMs fuel (tick + 1)
            (now + probeDur tick + pollIntervalMs)).probeStarts⟩
    else ⟨.result .timedOut tick now, []⟩

/-! ## The whole route handler (lines 199-307) -/

/-- What the route handler sends: tag plus the HTTP status it goes out
with. `pending` is the fuel-exhaustion artifact. -/
inductive HttpOut where
  | badRequest
  | filtered
  | noVideo
  | okOut (videoUri : String) (endpoint : String) (modelUsed : String)
  | timeout (operationId : String) (modelUsed : String)
  | quota (details : String)
  | serverError (details : String)
  | pending
  deriving DecidableEq, Repr

/-- The HTTP status code each handler outcome is sent with. -/
def httpStatusOf : HttpOut → Nat
  | .badRequest => 400
  | .filtered => 400
  | .noVideo => 500
  | .okOut _ _ _ => 200
  | .timeout _ _ => 504
  | .quota _ => 429
  | .serverError _ => 500
  | .pending => 0

/-- The outer catch (lines 294-306): an error whose `code` is 429 maps to
the 429 quota response, anything else to the 500 internal-server-error
response with the error message as details. -/
def mapOuterError (e : JsError) : HttpOut :=
  if e.code = some 429 then .quota e.message else .serverError e.message

/-- Lines 199-307: `app.post('/generate-video')`. A falsy prompt is
rejected with 400 before anything else (lines 204-206); then the
submission loop runs, a thrown error going to the outer catch; on success
the polling loop runs with `startTime = Date.now()` (line 243), each tick
probing via `checkOperationStatusComprehensive` in that tick's world
`worlds n`. -/
def generateVideoHandler (prompt : String) (attempt : String → Except JsError String)
    (worlds : Nat → ProbeWorld) (probeDur : Nat → Nat) (startTime fuel : Nat)
    (endpoints : List String) : HttpOut :=
  if prompt = "" then .badRequest
  else
    match submitPhase attempt endpoints with
    | .error e => mapOuterError e
    | .ok (operationId, modelUsed) =>
      let probe := fun n =>
        checkOperationStatusComprehensive (worlds n) endpoints operationId
      match (pollLoopAux probe probeDur startTime (maxWaitSeconds * 1000)
          fuel 0 startTime).result with
      | .result .filtered _ _ => .filtered
      | .result .emptyResult _ _ => .noVideo
      | .result (.success uri ep) _ _ => .okOut uri ep modelUsed
      | .result .timedOut _ _ => .timeout operationId modelUsed
      | .fuelOut => .pending

/-! ## Helper lemmas about the submission loop -/

lemma getLastD_eq_getLast_of_ne_nil (l : List String) (h : l ≠ []) (d : String) :
    l.getLastD d = l.getLast h := by
  cases l with
  | nil => exact absurd rfl h
  | cons a as => rfl

lemma getLastD_mem (l : List String) (h : l ≠ []) (d : String) : l.getLastD d ∈ l := by
  rw [getLastD_eq_getLast_of_ne_nil l h d]
  exact List.getLast_mem h

/-- As long as no element strictly before the end equals the registry's
last element, the submission loop returns the first candidate whose
attempt succeeds, together with the resource name that attempt returned. -/
lemma submitGo_firstSuccess (attempt : String → Except JsError String) (lastEp : String) :
    ∀ (l : List String), (∀ x ∈ l.dropLast, x ≠ lastEp) →
      ∀ tgt, firstSuccess attempt l = some tgt →
      ∃ name, attempt tgt = .ok name ∧
        submitGo attempt lastEp l = .ok (some (name, tgt)) := by
  intro l
  induction l with
  | nil => intro _ tgt h; simp [firstSuccess] at h
  | cons e rest ih =>
    intro hpre tgt hfs
    cases hae : attempt e with
    | ok name =>
      have : tgt = e := by
        simp only [firstSuccess, hae] at hfs
        exact (Option.some_inj.mp hfs).symm
      subst this
      exact ⟨name, hae, by simp [submitGo, hae]⟩
    | error err =>
      have hfs' : firstSuccess attempt rest = some tgt := by
        simpa only [firstSuccess, hae] using hfs
      have hrest : rest ≠ [] := by
        intro hr; rw [hr] at hfs'; simp [firstSuccess] at hfs'
      have hdl : (e :: rest).dropLast = e :: rest.dropLast := by
        cases rest with
        | nil => exact absurd rfl hrest
        | cons b t => rfl
      have hne : e ≠ lastEp := hpre e (by rw [hdl]; exact List.mem_cons_self e _)
      obtain ⟨name, h1, h2⟩ := ih
        (fun x hx => hpre x (by rw [hdl]; exact List.mem_cons_of_mem e hx)) tgt hfs'
      exact ⟨name, h1, by simp [submitGo, hae, hne, h2]⟩

/-- If every attempt fails and the last element is in the list, the loop
throws the exhaustion error at the first element equal to the last one. -/
lemma submitGo_all_fail (attempt : String → Except JsError String) (lastEp : String) :
    ∀ (l : List String), lastEp ∈ l →
      (∀ e ∈ l, ∃ err, attempt e = .error err) →
      submitGo attempt lastEp l =
        .error ⟨none, "All model endpoint variations failed"⟩ := by
  intro l
  induction l with
  | nil => intro h; simp at h
  | cons e rest ih =>
    intro hmem hfail
    obtain ⟨err, hae⟩ := hfail e (List.mem_cons_self e rest)
    by_cases he : e = lastEp
    · subst he
      simp [submitGo, hae]
    · have hmem' : lastEp ∈ rest := by
        cases List.mem_cons.mp hmem with
        | inl h => exact absurd h.symm he
        | inr h => exact h
      have := ih hmem' (fun x hx => hfail x (List.mem_cons_of_mem e hx))
      simp [submitGo, hae, he, this]

/-- C1: for every deduplicated candidate registry, when some candidate's
submission succeeds, `submit` returns the first candidate in registry
order whose attempt succeeds as `submittedVia` (iteration stops at the
first success), and the operation handle is the final slash-delimited
segment of the resource name that successful attempt returned. -/
theorem c1_submit_first_success_wins (attempt : String → Except JsError String)
    (endpoints : List String) (hnd : endpoints.Nodup) (tgt : String)
    (hfs : firstSuccess attempt endpoints = some tgt) :
    ∃ name, attempt tgt = .ok name ∧
      submitPhase attempt endpoints = .ok (splitPop name, tgt) := by
  have hne : endpoints ≠ [] := by
    intro h; rw [h] at hfs; simp [firstSuccess] at hfs
  have hpre : ∀ x ∈ endpoints.dropLast, x ≠ endpoints.getLastD "" := by
    intro x hx
    rw [getLastD_eq_getLast_of_ne_nil endpoints hne]
    intro hEq
    have hsplit := List.dropLast_append_getLast hne
    rw [← hsplit] at hnd
    have hdisj := (List.nodup_append.mp hnd).2.2
    have hxmem : x ∈ [endpoints.getLast hne] := by
      rw [hEq]; exact List.mem_singleton_self _
    exact hdisj hx hxmem
  obtain ⟨name, h1, h2⟩ :=
    submitGo_firstSuccess attempt (endpoints.getLastD "") endpoints hpre tgt hfs
  exact ⟨name, h1, by unfold submitPhase; rw [h2]⟩

/-- Concrete registry world for the C1 witness: the first candidate
rejects, the second accepts with resource name
`projects/p/operations/op42`. -/
def c1Attempt : String → Except JsError String := fun e =>
  if e = "veo-3.0-generate-001" then .ok ("projects/p/operations/op42")
  else .error ⟨some 404, "Not Found"⟩

/-- C1 witness: with the real registry and a world whose first success is
the second candidate, `submit` records that candidate and handle `op42`. -/
theorem c1_submit_first_success_wins_witness :
    ∃ name, c1Attempt "veo-3.0-generate-001" = .ok name ∧
      submitPhase c1Attempt modelEndpoints = .ok (splitPop name, "veo-3.0-generate-001") :=
  c1_submit_first_success_wins c1Attempt modelEndpoints (by decide)
    "veo-3.0-generate-001" rfl

/-- C9: when every candidate's submission attempt fails, the handler's
submission phase throws the exhaustion error, no operation id is produced,
and — for every prompt and every polling world, i.e. without any probe
being consulted — the caller receives the 500 internal-server-error
response carrying that message. -/
theorem c9_submission_exhausted (attempt : String → Except JsError String)
    (endpoints : List String) (hne : endpoints ≠ [])
    (hfail : ∀ e ∈ endpoints, ∃ err, attempt e = .error err) :
    submitPhase attempt endpoints =
        .error ⟨none, "All model endpoint variations failed"⟩ ∧
    (∀ prompt worlds probeDur startTime fuel, prompt ≠ "" →
      generateVideoHandler prompt attempt worlds probeDur startTime fuel endpoints =
        .serverError "All model endpoint variations failed") ∧
    httpStatusOf (.serverError "All model endpoint variations failed") = 500 := by
  have hgo := submitGo_all_fail attempt (endpoints.getLastD "") endpoints
    (getLastD_mem endpoints hne "") hfail
  have hsp : submitPhase attempt endpoints =
      .error ⟨none, "All model endpoint variations failed"⟩ := by
    unfold submitPhase; rw [hgo]
  refine ⟨hsp, ?_, rfl⟩
  intro prompt worlds probeDur startTime fuel hprompt
  simp [generateVideoHandler, hprompt, hsp, mapOuterError]

/-- All-fail submission world for the C9 witness. -/
def c9Attempt : String → Except JsError String := fun _ =>
  .error ⟨some 404, "Publisher Model not found"⟩

/-- Probe world for the C9 witness (never consulted). -/
def c9Worlds : Nat → ProbeWorld := fun _ =>
  ⟨.ok (), fun _ => .transportError "socket hang up"⟩

/-- C9 witness: with the real registry and every candidate failing, the
caller gets the 500 exhaustion response. -/
theorem c9_submission_exhausted_witness :
    submitPhase c9Attempt modelEndpoints =
        .error ⟨none, "All model endpoint variations failed"⟩ ∧
    generateVideoHandler "sunset" c9Attempt c9Worlds (fun _ => 0) 0 3 modelEndpoints =
        .serverError "All model endpoint variations failed" := by
  have h := c9_submission_exhausted c9Attempt modelEndpoints (by decide)
    (fun e _ => ⟨⟨some 404, "Publisher Model not found"⟩, rfl⟩)
  exact ⟨h.1, h.2.1 "sunset" c9Worlds (fun _ => 0) 0 3 (by decide)⟩

/-! ## Helper lemmas about classification and the poll loop -/

/-- The moderation-count check of line 255, in specification terms. -/
lemma raiFilteredPos_iff (c : Option Nat) :
    raiFilteredPos c = true ↔ ∃ n, c = some n ∧ 0 < n := by
  cases c <;> simp [raiFilteredPos]

/-- The classification of a `done` payload never produces the timeout
outcome: that outcome arises only from the deadline guard. -/
lemma classifyDone_ne_timedOut (resp : Option GenResponse) (ep : String) (r : GenOutcome)
    (h : classifyDone resp ep = .ok r) : r ≠ GenOutcome.timedOut := by
  intro hr
  subst hr
  cases resp with
  | none => simp [classifyDone] at h
  | some g =>
    simp only [classifyDone] at h
    split at h
    · simp at h
    · split at h
      · simp at h
      · split at h <;> simp at h

/-- Inversion of a terminal tick: the probe resolved successfully, the
payload was `done`, and the classification returned the outcome without
throwing. -/
lemma tickBody_some_inv (sr : StatusResult) (r : GenOutcome) (h : tickBody sr = some r) :
    ∃ data ep, sr = .success data ep ∧ data.done = true ∧
      classifyDone data.response ep = .ok r := by
  cases sr with
  | failure e => simp [tickBody] at h
  | success data ep =>
    simp only [tickBody] at h
    cases hdone : data.done with
    | false => rw [hdone] at h; simp at h
    | true =>
      rw [hdone] at h
      simp only [if_true] at h
      cases hc : classifyDone data.response ep with
      | error msg => rw [hc] at h; simp at h
      | ok r' =>
        rw [hc] at h
        simp only [Option.some.injEq] at h
        subst h
        exact ⟨data, ep, rfl, hdone, hc⟩

/-- A tick never terminates the loop with the timeout outcome. -/
lemma tickBody_ne_timedOut (sr : StatusResult) : tickBody sr ≠ some GenOutcome.timedOut := by
  intro h
  obtain ⟨data, ep, _, _, hc⟩ := tickBody_some_inv sr GenOutcome.timedOut h
  exact classifyDone_ne_timedOut data.response ep GenOutcome.timedOut hc rfl

/-- When the deadline guard holds and the tick is terminal, the loop
returns that outcome at this very tick and time. -/
lemma pollLoop_terminal_at (probe : Nat → StatusResult) (probeDur : Nat → Nat)
    (startTime maxWaitMs fuel tick now : Nat) (r : GenOutcome)
    (hguard : now - startTime < maxWaitMs) (ht : tickBody (probe tick) = some r) :
    pollLoopAux probe probeDur startTime maxWaitMs (fuel + 1) tick now =
      ⟨.result r tick now, [now]⟩ := by
  unfold pollLoopAux
  rw [if_pos hguard, ht]

/-- Every probe start recorded by a loop run lies strictly before the
deadline. -/
lemma pollLoop_probeStarts_lt (probe : Nat → StatusResult) (probeDur : Nat → Nat)
    (startTime maxWaitMs : Nat) :
    ∀ fuel tick now t,
      t ∈ (pollLoopAux probe probeDur startTime maxWaitMs fuel tick now).probeStarts →
      t - startTime < maxWaitMs := by
  intro fuel
  induction fuel with
  | zero => intro tick now t ht; simp [pollLoopAux] at ht
  | succ f ih =>
    intro tick now t ht
    unfold pollLoopAux at ht
    by_cases hguard : now - startTime < maxWaitMs
    · rw [if_pos hguard] at ht
      cases hm : tickBody (probe tick) with
      | some r =>
        rw [hm] at ht
        simp only [List.mem_singleton] at ht
        subst ht; exact hguard
      | none =>
        rw [hm] at ht
        simp only [List.mem_cons] at ht
        cases ht with
        | inl h => subst h; exact hguard
        | inr h => exact ih _ _ t h
    · rw [if_neg hguard] at ht
      simp at ht

/-- The loop returns the timeout outcome only with a time at or past the
deadline. -/
lemma pollLoop_timedOut_ge (probe : Nat → StatusResult) (probeDur : Nat → Nat)
    (startTime maxWaitMs : Nat) :
    ∀ fuel tick now tk t,
      (pollLoopAux probe probeDur startTime maxWaitMs fuel tick now).result =
        .result .timedOut tk t →
      maxWaitMs ≤ t - startTime := by
  intro fuel
  induction fuel with
  | zero => intro tick now tk t h; simp [pollLoopAux] at h
  | succ f ih =>
    intro tick now tk t h
    unfold pollLoopAux at h
    by_cases hguard : now - startTime < maxWaitMs
    · rw [if_pos hguard] at h
      cases hm : tickBody (probe tick) with
      | some r =>
        rw [hm] at h
        simp only [LoopResult.result.injEq] at h
        exact absurd (h.1 ▸ hm) (tickBody_ne_timedOut (probe tick))
      | none =>
        rw [hm] at h
        exact ih _ _ tk t h
    · rw [if_neg hguard] at h
      simp only [LoopResult.result.injEq] at h
      rw [← h.2.2]
      exact Nat.le_of_not_lt hguard

/-- Any non-timeout terminal outcome arises from a tick whose probe
resolved successfully with a `done` payload. -/
lemma pollLoop_terminal_probe (probe : Nat → StatusResult) (probeDur : Nat → Nat)
    (startTime maxWaitMs : Nat) :
    ∀ fuel tick now r tk t,
      (pollLoopAux probe probeDur startTime maxWaitMs fuel tick now).result =
        .result r tk t →
      r ≠ GenOutcome.timedOut →
      ∃ data ep, probe tk = .success data ep ∧ data.done = true ∧
        classifyDone data.response ep = .ok r := by
  intro fuel
  induction fuel with
  | zero => intro tick now r tk t h _; simp [pollLoopAux] at h
  | succ f ih =>
    intro tick now r tk t h hr
    unfold pollLoopAux at h
    by_cases hguard : now - startTime < maxWaitMs
    · rw [if_pos hguard] at h
      cases hm : tickBody (probe tick) with
      | some r' =>
        rw [hm] at h
        simp only [LoopResult.result.injEq] at h
        obtain ⟨h1, h2, _⟩ := h
        subst h1
        subst h2
        exact tickBody_some_inv _ _ hm
      | none =>
        rw [hm] at h
        exact ih _ _ r tk t h hr
    · rw [if_neg hguard] at h
      simp only [LoopResult.result.injEq] at h
      exact absurd h.1.symm hr

/-- If no tick is ever terminal, the loop can only exhaust its fuel or
time out. -/
lemma pollLoop_nonterminal (probe : Nat → StatusResult) (probeDur : Nat → Nat)
    (startTime maxWaitMs : Nat) (hnone : ∀ n, tickBody (probe n) = none) :
    ∀ fuel tick now,
      (pollLoopAux probe probeDur startTime maxWaitMs fuel tick now).result = .fuelOut ∨
      ∃ tk t, (pollLoopAux probe probeDur startTime maxWaitMs fuel tick now).result =
        .result .timedOut tk t := by
  intro fuel
  induction fuel with
  | zero => intro tick now; left; rfl
  | succ f ih =>
    intro tick now
    unfold pollLoopAux
    by_cases hguard : now - startTime < maxWaitMs
    · rw [if_pos hguard, hnone tick]
      exact ih (tick + 1) (now + probeDur tick + pollIntervalMs)
    · rw [if_neg hguard]
      exact Or.inr ⟨tick, now, rfl⟩

/-- C2: a tick whose probe resolves a terminal (`done`) payload carrying a
`response` object ends the loop at that tick with the classification of
lines 253-277: a positive moderation-filtered count gives FILTERED
regardless of any accompanying media locator; otherwise a missing or empty
media locator gives EMPTY_RESULT; otherwise SUCCESS carrying the locator
and the endpoint that resolved the probe. -/
theorem c2_done_classification (probe : Nat → StatusResult) (probeDur : Nat → Nat)
    (startTime maxWaitMs fuel tick now : Nat) (g : GenResponse) (ep : String)
    (hguard : now - startTime < maxWaitMs)
    (hp : probe tick = .success ⟨true, some g⟩ ep) :
    ((∃ n, g.raiMediaFilteredCount = some n ∧ 0 < n) →
      (pollLoopAux probe probeDur startTime maxWaitMs (fuel + 1) tick now).result =
        .result .filtered tick now) ∧
    ((¬ ∃ n, g.raiMediaFilteredCount = some n ∧ 0 < n) →
      ((videoUriOf g = none ∨ videoUriOf g = some "") →
        (pollLoopAux probe probeDur startTime maxWaitMs (fuel + 1) tick now).result =
          .result .emptyResult tick now) ∧
      (∀ uri, videoUriOf g = some uri → uri ≠ "" →
        (pollLoopAux probe probeDur startTime maxWaitMs (fuel + 1) tick now).result =
          .result (.success uri ep) tick now)) := by
  have key : ∀ r, classifyDone (some g) ep = .ok r →
      (pollLoopAux probe probeDur startTime maxWaitMs (fuel + 1) tick now).result =
        .result r tick now := by
    intro r hc
    have ht : tickBody (probe tick) = some r := by
      rw [hp]
      simp [tickBody, hc]
    rw [pollLoop_terminal_at probe probeDur startTime maxWaitMs fuel tick now r hguard ht]
  constructor
  · intro hex
    have hf : raiFilteredPos g.raiMediaFilteredCount = true :=
      (raiFilteredPos_iff _).mpr hex
    exact key .filtered (by simp [classifyDone, hf])
  · intro hnex
    cases hb : raiFilteredPos g.raiMediaFilteredCount with
    | true => exact absurd ((raiFilteredPos_iff _).mp hb) hnex
    | false =>
      constructor
      · intro hv
        cases hv with
        | inl h => exact key .emptyResult (by simp [classifyDone, hb, h])
        | inr h => exact key .emptyResult (by simp [classifyDone, hb, h])
      · intro uri hu hne
        exact key (.success uri ep) (by simp [classifyDone, hb, hu, hne])

/-- Terminal payload for the C2 witness: moderation filtered one response
and still carries a media locator. -/
def c2Gen : GenResponse := ⟨some 1, some [⟨some ("gs://bucket/video.mp4")⟩]⟩

/-- Probe schedule for the C2 witness. -/
def c2Probe : Nat → StatusResult := fun _ => .success ⟨true, some c2Gen⟩ "veo-3"

/-- C2 witness: a filtered-count of 1 yields FILTERED at the very tick even
though a media locator is present. -/
theorem c2_done_classification_witness :
    (pollLoopAux c2Probe (fun _ => 0) 0 1000 1 0 0).result =
      .result .filtered 0 0 :=
  (c2_done_classification c2Probe (fun _ => 0) 0 1000 0 0 0 c2Gen "veo-3"
    (by decide) rfl).1 ⟨1, rfl, by decide⟩

/-- C3: the deadline guard sits at the top of every iteration: every probe
start recorded by a run lies strictly before the deadline (no probe is
started once the deadline has elapsed), and the loop produces the timeout
outcome only at a time at or past the deadline, never earlier. -/
theorem c3_deadline_discipline (probe : Nat → StatusResult) (probeDur : Nat → Nat)
    (startTime maxWaitMs fuel tick now : Nat) :
    (∀ t ∈ (pollLoopAux probe probeDur startTime maxWaitMs fuel tick now).probeStarts,
      t - startTime < maxWaitMs) ∧
    (∀ tk t, (pollLoopAux probe probeDur startTime maxWaitMs fuel tick now).result =
      .result .timedOut tk t → maxWaitMs ≤ t - startTime) :=
  ⟨fun t ht => pollLoop_probeStarts_lt probe probeDur startTime maxWaitMs fuel tick now t ht,
   fun tk t h => pollLoop_timedOut_ge probe probeDur startTime maxWaitMs fuel tick now tk t h⟩

/-- Probe schedule for the C3 witness: the status check always fails, so
the job never reaches `done`. -/
def c3Probe : Nat → StatusResult := fun _ => .failure allVariations404Msg

/-- C3 witness, at the real 4-hour ceiling: a run reaching wall-clock time
14400000 ms after start returns the timeout, and the theorem yields that
the 4-hour bound is already met there; a short run records probe starts
0, 30000, 60000, each strictly before its deadline. -/
theorem c3_deadline_discipline_witness :
    (pollLoopAux c3Probe (fun _ => 0) 0 (maxWaitSeconds * 1000) 1 480 14400000).result =
      .result .timedOut 480 14400000 ∧
    maxWaitSeconds * 1000 ≤ 14400000 - 0 ∧
    (pollLoopAux c3Probe (fun _ => 0) 0 60001 3 0 0).probeStarts = [0, 30000, 60000] ∧
    30000 - 0 < 60001 :=
  ⟨rfl,
   (c3_deadline_discipline c3Probe (fun _ => 0) 0 (maxWaitSeconds * 1000) 1 480
      14400000).2 480 14400000 rfl,
   rfl,
   (c3_deadline_discipline c3Probe (fun _ => 0) 0 60001 3 0 0).1 30000 (by decide)⟩

/-- C8: a failed probe is never a terminal outcome — every non-timeout
terminal tick had a successfully resolved, `done` probe; and under a
schedule where every probe fails the loop can only keep running or time
out (the failure is surfaced only as the timeout once the deadline
elapses). -/
theorem c8_probe_failure_transient (probe : Nat → StatusResult) (probeDur : Nat → Nat)
    (startTime maxWaitMs fuel tick now : Nat) :
    (∀ r tk t, (pollLoopAux probe probeDur startTime maxWaitMs fuel tick now).result =
        .result r tk t → r ≠ GenOutcome.timedOut →
        ∃ data ep, probe tk = .success data ep ∧ data.done = true) ∧
    ((∀ n, ∃ e, probe n = .failure e) →
      (pollLoopAux probe probeDur startTime maxWaitMs fuel tick now).result = .fuelOut ∨
      ∃ tk t, (pollLoopAux probe probeDur startTime maxWaitMs fuel tick now).result =
        .result .timedOut tk t) := by
  constructor
  · intro r tk t h hr
    obtain ⟨data, ep, h1, h2, _⟩ :=
      pollLoop_terminal_probe probe probeDur startTime maxWaitMs fuel tick now r tk t h hr
    exact ⟨data, ep, h1, h2⟩
  · intro hfail
    apply pollLoop_nonterminal
    intro n
    obtain ⟨e, he⟩ := hfail n
    rw [he]
    rfl

/-- Probe schedule for the C8 witness: every status check fails. -/
def c8Probe : Nat → StatusResult := fun _ => .failure ("Status check failed: ECONNRESET")

/-- C8 witness: under an always-failing probe schedule started past the
deadline, the loop times out rather than surfacing the probe failure. -/
theorem c8_probe_failure_transient_witness :
    (pollLoopAux c8Probe (fun _ => 0) 0 (maxWaitSeconds * 1000) 1 480 14400000).result =
      .fuelOut ∨
    ∃ tk t, (pollLoopAux c8Probe (fun _ => 0) 0 (maxWaitSeconds * 1000) 1 480
      14400000).result = .result .timedOut tk t :=
  (c8_probe_failure_transient c8Probe (fun _ => 0) 0 (maxWaitSeconds * 1000) 1 480
    14400000).2 (fun _ => ⟨"Status check failed: ECONNRESET", rfl⟩)

/-- C10: a `done` payload with no `response` object makes the
classification throw (the TypeError of line 255 reading a property of
`undefined`); the tick's catch absorbs it, so the tick is not terminal;
and a backend persistently returning such payloads drives the loop to the
timeout (or to fuel exhaustion in this bounded embedding), never to
EMPTY_RESULT or any other classification. -/
theorem c10_absent_response_not_terminal (probe : Nat → StatusResult)
    (probeDur : Nat → Nat) (startTime maxWaitMs fuel tick now : Nat) (ep : String) :
    (∃ msg, classifyDone none ep = .error msg) ∧
    tickBody (.success ⟨true, none⟩ ep) = none ∧
    ((∀ n, ∃ epn, probe n = .success ⟨true, none⟩ epn) →
      (pollLoopAux probe probeDur startTime maxWaitMs fuel tick now).result = .fuelOut ∨
      ∃ tk t, (pollLoopAux probe probeDur startTime maxWaitMs fuel tick now).result =
        .result .timedOut tk t) := by
  refine ⟨⟨"TypeError: Cannot read properties of undefined", rfl⟩, rfl, ?_⟩
  intro hall
  apply pollLoop_nonterminal
  intro n
  obtain ⟨epn, he⟩ := hall n
  rw [he]
  rfl

/-- Probe schedule for the C10 witness: every probe resolves a `done`
payload whose `response` field is absent. -/
def c10Probe : Nat → StatusResult := fun _ => .success ⟨true, none⟩ "veo-3"

/-- C10 witness: with such a backend and the real 4-hour ceiling the run
ends in the timeout, not in EMPTY_RESULT. -/
theorem c10_absent_response_not_terminal_witness :
    (pollLoopAux c10Probe (fun _ => 0) 0 (maxWaitSeconds * 1000) 1 480 14400000).result =
      .fuelOut ∨
    ∃ tk t, (pollLoopAux c10Probe (fun _ => 0) 0 (maxWaitSeconds * 1000) 1 480
      14400000).result = .result .timedOut tk t :=
  (c10_absent_response_not_terminal c10Probe (fun _ => 0) 0 (maxWaitSeconds * 1000) 1
    480 14400000 "veo-3").2.2 (fun _ => ⟨"veo-3", rfl⟩)

/-! ## Helper lemmas about the status prober -/

/-- Whether an HTTP outcome is a resolved 200 response, and its payload. -/
def resolves200 (resp : HttpResp) : Option StatusData :=
  match resp with
  | .ok s data => if s = 200 then some data else none
  | _ => none

/-- When no candidate-scoped lookup resolves with 200, the candidate loop
finds nothing and its trace is exactly the candidate URLs in registry
order. -/
lemma tryEndpoints_none (w : ProbeWorld) (opId : String) :
    ∀ (l : List String),
      (∀ e ∈ l, resolves200 (w.http (candidateStatusUrl e opId)) = none) →
      tryEndpoints w opId l = none ∧
        tryEndpointsTrace w opId l = l.map (fun e => candidateStatusUrl e opId) := by
  intro l
  induction l with
  | nil => intro _; exact ⟨rfl, rfl⟩
  | cons e rest ih =>
    intro h
    have he := h e (List.mem_cons_self e rest)
    obtain ⟨h1, h2⟩ := ih (fun x hx => h x (List.mem_cons_of_mem e hx))
    cases hw : w.http (candidateStatusUrl e opId) with
    | ok s data =>
      rw [hw] at he
      simp only [resolves200] at he
      have hs : ¬ s = 200 := by
        intro hs
        rw [if_pos hs] at he
        exact Option.noConfusion he
      constructor
      · simp only [tryEndpoints, hw, if_neg hs]
        exact h1
      · simp only [tryEndpointsTrace, hw, if_neg hs, List.map_cons]
        rw [h2]
    | httpError s m =>
      constructor
      · simp only [tryEndpoints, hw]
        exact h1
      · simp only [tryEndpointsTrace, hw, List.map_cons]
        rw [h2]
    | transportError m =>
      constructor
      · simp only [tryEndpoints, hw]
        exact h1
      · simp only [tryEndpointsTrace, hw, List.map_cons]
        rw [h2]

/-- When the token is available but neither any candidate-scoped lookup nor
the generic lookup resolves with 200, the prober returns the all-404
failure message. -/
lemma checkOp_all_fail (w : ProbeWorld) (endpoints : List String) (operationId : String)
    (htoken : w.token = .ok ())
    (hnone : ∀ e ∈ endpoints,
      resolves200 (w.http (candidateStatusUrl e (cleanOperationId operationId))) = none)
    (hgen : resolves200 (w.http (genericOperationsUrl (cleanOperationId operationId))) =
      none) :
    checkOperationStatusComprehensive w endpoints operationId =
      .failure allVariations404Msg := by
  obtain ⟨h1, _⟩ := tryEndpoints_none w (cleanOperationId operationId) endpoints hnone
  unfold checkOperationStatusComprehensive
  rw [htoken]
  simp only [h1]
  cases hw : w.http (genericOperationsUrl (cleanOperationId operationId)) with
  | ok s data =>
    rw [hw] at hgen
    simp only [resolves200] at hgen
    have hs : ¬ s = 200 := by
      intro hs
      rw [if_pos hs] at hgen
      exact Option.noConfusion hgen
    simp [if_neg hs]
  | httpError s m => rfl
  | transportError m => rfl

/-- C4: when every candidate-scoped lookup yields HTTP 404, the prober
issues its lookups at exactly the candidate URLs in registry order
followed by the one generic operations URL (so the generic fallback is
attempted before failure is declared), and if the generic lookup resolves
with 200 its payload is returned, tagged `operations-api`. -/
theorem c4_generic_fallback (w : ProbeWorld) (endpoints : List String)
    (operationId : String) (htoken : w.token = .ok ())
    (h404 : ∀ e ∈ endpoints, ∃ m,
      w.http (candidateStatusUrl e (cleanOperationId operationId)) = .httpError 404 m) :
    probeTrace w endpoints operationId =
      endpoints.map (fun e => candidateStatusUrl e (cleanOperationId operationId)) ++
        [genericOperationsUrl (cleanOperationId operationId)] ∧
    (∀ data, w.http (genericOperationsUrl (cleanOperationId operationId)) = .ok 200 data →
      checkOperationStatusComprehensive w endpoints operationId =
        .success data ("operations-api")) := by
  have hnone : ∀ e ∈ endpoints,
      resolves200 (w.http (candidateStatusUrl e (cleanOperationId operationId))) = none := by
    intro e he
    obtain ⟨m, hm⟩ := h404 e he
    rw [hm]
    rfl
  obtain ⟨h1, h2⟩ := tryEndpoints_none w (cleanOperationId operationId) endpoints hnone
  constructor
  · unfold probeTrace
    rw [htoken]
    simp only [h1, h2]
  · intro data hgen
    unfold checkOperationStatusComprehensive
    rw [htoken]
    simp [h1, hgen]

/-- HTTP world for the C4 witness: candidate-scoped lookups 404, the
generic operations lookup resolves. -/
def c4World : ProbeWorld :=
  ⟨.ok (), fun url =>
    if url = genericOperationsUrl ("abc123") then .ok 200 ⟨false, none⟩
    else .httpError 404 "Not Found"⟩

/-- C4 witness, at the spec's example: handle `abc123`, registry
`[v1, v2]`, both candidates 404 — the generic URL is attempted after both
candidate URLs and its 200 payload is returned. -/
theorem c4_generic_fallback_witness :
    probeTrace c4World ["v1", "v2"] "abc123" =
      [candidateStatusUrl "v1" "abc123", candidateStatusUrl "v2" "abc123",
        genericOperationsUrl "abc123"] ∧
    checkOperationStatusComprehensive c4World ["v1", "v2"] "abc123" =
      .success ⟨false, none⟩ ("operations-api") := by
  have h := c4_generic_fallback c4World ["v1", "v2"] "abc123" rfl
    (by
      intro e he
      refine ⟨"Not Found", ?_⟩
      fin_cases he <;> rfl)
  exact ⟨by rw [h.1]; rfl, h.2 ⟨false, none⟩ (by rfl)⟩

/-! ## C5: lookup order versus submittedVia -/

/-- The candidate trace always begins with the first registry element's
URL, whatever the HTTP world answers. -/
lemma tryEndpointsTrace_cons (w : ProbeWorld) (opId e0 : String) (rest : List String) :
    ∃ tail, tryEndpointsTrace w opId (e0 :: rest) = candidateStatusUrl e0 opId :: tail := by
  unfold tryEndpointsTrace
  cases w.http (candidateStatusUrl e0 opId) with
  | ok s data =>
    by_cases hs : s = 200
    · exact ⟨[], by simp [hs]⟩
    · exact ⟨tryEndpointsTrace w opId rest, by simp [hs]⟩
  | httpError s m => exact ⟨tryEndpointsTrace w opId rest, rfl⟩
  | transportError m => exact ⟨tryEndpointsTrace w opId rest, rfl⟩

/-- Submission world for the C5 counterexample: the first candidate
rejects the job, the second accepts it. -/
def c5Attempt : String → Except JsError String := fun e =>
  if e = "veo-3.0-generate-001" then .ok ("projects/p/operations/op77")
  else .error ⟨some 404, "Not Found"⟩

/-- HTTP world for the C5 counterexample: every status lookup 404s, so the
full lookup order is observable in the trace. -/
def c5World : ProbeWorld := ⟨.ok (), fun _ => .httpError 404 "Not Found"⟩

/-- C5 counterexample: the operation is accepted by the second registry
candidate (`submittedVia = veo-3.0-generate-001`), yet the status prober's
first lookup goes to the first registry candidate's URL, which is not the
URL scoped to `submittedVia` — the prober takes no notice of which
candidate accepted the submission. -/
theorem c5_counterexample_registry_order_first :
    submitPhase c5Attempt modelEndpoints = .ok ("op77", "veo-3.0-generate-001") ∧
    (probeTrace c5World modelEndpoints "op77").head? =
      some (candidateStatusUrl "veo-3" "op77") ∧
    candidateStatusUrl "veo-3" "op77" ≠
      candidateStatusUrl "veo-3.0-generate-001" "op77" :=
  ⟨rfl, rfl, by decide⟩

/-- C5 amended: the status lookup iterates candidates in fixed registry
order regardless of `submittedVia` — the first lookup attempted is always
against the registry's first candidate, so `submittedVia` is attempted
first only when it happens to be the registry's first element. -/
theorem c5_amended_registry_order (w : ProbeWorld) (operationId e0 : String)
    (rest : List String) (htoken : w.token = .ok ()) :
    (probeTrace w (e0 :: rest) operationId).head? =
      some (candidateStatusUrl e0 (cleanOperationId operationId)) := by
  obtain ⟨tail, htail⟩ :=
    tryEndpointsTrace_cons w (cleanOperationId operationId) e0 rest
  unfold probeTrace
  rw [htoken]
  dsimp only
  cases hm : tryEndpoints w (cleanOperationId operationId) (e0 :: rest) with
  | some r => simp [htail]
  | none => simp [htail]

/-- C5 amended-claim witness: with the real registry, the first lookup for
an operation submitted via the second candidate still targets the first
candidate's URL. -/
theorem c5_amended_registry_order_witness :
    (probeTrace c5World ("veo-3" :: ["veo-3.0-generate-001", "video-generation"])
        "op77").head? = some (candidateStatusUrl "veo-3" (cleanOperationId "op77")) :=
  c5_amended_registry_order c5World "op77" "veo-3"
    ["veo-3.0-generate-001", "video-generation"] rfl

/-! ## C6: distinguishability of failure reasons -/

/-- HTTP world where every lookup returns HTTP 404. -/
def c6All404World : ProbeWorld := ⟨.ok (), fun _ => .httpError 404 "Not Found"⟩

/-- HTTP world where every lookup fails at the transport layer — no lookup
returns 404. -/
def c6TransportWorld : ProbeWorld := ⟨.ok (), fun _ => .transportError "socket hang up"⟩

/-- C6 counterexample: a probe whose candidate lookups all fail with
transport errors (none of them a 404) produces exactly the same failure
reason — the all-returned-404 message — as a probe whose lookups all
genuinely 404. The transport-failure-on-lookup mode is therefore not
distinguishable from the all-404 mode. -/
theorem c6_counterexample_transport_folded :
    checkOperationStatusComprehensive c6All404World modelEndpoints "op1" =
      .failure allVariations404Msg ∧
    checkOperationStatusComprehensive c6TransportWorld modelEndpoints "op1" =
      .failure allVariations404Msg :=
  ⟨rfl, rfl⟩

/-- The token-failure reason never coincides with the lookup-exhaustion
reason: their first characters differ. -/
lemma statusCheckFailed_ne_all404 (msg : String) :
    ("Status check failed: " ++ msg) ≠ allVariations404Msg := by
  intro h
  have hd := congrArg String.data h
  rw [String.data_append] at hd
  have h1 : ("Status check failed: ".data ++ msg.data).head? = some 'S' := rfl
  rw [hd] at h1
  exact absurd h1 (by decide)

/-- C6 amended: when every lookup fails, the prober's failure reason
distinguishes a token-acquisition (auth) failure — `Status check
failed: ...` — from lookup exhaustion, which always yields the
all-returned-404 reason; transport or auth errors on the individual
lookups themselves are folded into the latter. -/
theorem c6_amended_failure_reasons (w1 w2 : ProbeWorld) (endpoints : List String)
    (operationId msg : String)
    (h1 : w1.token = .error msg) (h2 : w2.token = .ok ())
    (hnone : ∀ e ∈ endpoints,
      resolves200 (w2.http (candidateStatusUrl e (cleanOperationId operationId))) = none)
    (hgen : resolves200 (w2.http (genericOperationsUrl (cleanOperationId operationId))) =
      none) :
    checkOperationStatusComprehensive w1 endpoints operationId =
      .failure ("Status check failed: " ++ msg) ∧
    checkOperationStatusComprehensive w2 endpoints operationId =
      .failure allVariations404Msg ∧
    ("Status check failed: " ++ msg) ≠ allVariations404Msg := by
  refine ⟨?_, checkOp_all_fail w2 endpoints operationId h2 hnone hgen,
    statusCheckFailed_ne_all404 msg⟩
  unfold checkOperationStatusComprehensive
  rw [h1]

/-- Auth-failure world for the C6 amended-claim witness. -/
def c6AuthFailWorld : ProbeWorld :=
  ⟨.error "invalid_grant", fun _ => .httpError 404 "Not Found"⟩

/-- C6 amended-claim witness: an auth failure and lookup exhaustion yield
the two concrete, distinct reasons. -/
theorem c6_amended_failure_reasons_witness :
    checkOperationStatusComprehensive c6AuthFailWorld modelEndpoints "op1" =
      .failure ("Status check failed: " ++ "invalid_grant") ∧
    checkOperationStatusComprehensive c6TransportWorld modelEndpoints "op1" =
      .failure allVariations404Msg ∧
    ("Status check failed: " ++ "invalid_grant") ≠ allVariations404Msg :=
  c6_amended_failure_reasons c6AuthFailWorld c6TransportWorld modelEndpoints "op1"
    "invalid_grant" rfl rfl (by intro e he; fin_cases he <;> rfl) rfl

/-! ## C7: a submission 429 never reaches the outer catch -/

/-- Submission world for C7: the backend answers every submission attempt
with a quota error carrying code 429. -/
def c7Attempt : String → Except JsError String := fun _ =>
  .error ⟨some 429, "Resource has been exhausted (e.g. check quota)."⟩

/-- Probe world for C7 (never consulted: submission already failed). -/
def c7Worlds : Nat → ProbeWorld := fun _ =>
  ⟨.ok (), fun _ => .httpError 404 "Not Found"⟩

/-- C7 evaluation: although the outer catch maps a code-429 error to the
distinct 429 quota response (third conjunct — the mapping exists), a 429
raised during submission never reaches it: the per-candidate catch
swallows it and, at the last candidate, throws a fresh error without a
code, so the caller gets the generic 500 internal-server-error response
instead of the rate-limited outcome. -/
theorem c7_quota_lost_evaluation :
    generateVideoHandler "sunset" c7Attempt c7Worlds (fun _ => 0) 0 3 modelEndpoints =
      .serverError "All model endpoint variations failed" ∧
    httpStatusOf (generateVideoHandler "sunset" c7Attempt c7Worlds (fun _ => 0) 0 3
      modelEndpoints) = 500 ∧
    mapOuterError ⟨some 429, "Resource has been exhausted (e.g. check quota)."⟩ =
      .quota "Resource has been exhausted (e.g. check quota)." :=
  ⟨rfl, rfl, rfl⟩
